import Mathlib

/-!
Verification of the `intelligent_planner` package of `browser-use-auto`.

Shallow embedding notes:
* Python `int` is modelled as `ℤ` (`Nat` where the value is a length).
* Python `float` fields (`likelihood`, `confidence`) and float arithmetic
  (`* 0.7`, `abs(score) / 10`) are modelled exactly over `ℚ`; every constant
  involved (0.7, 0.9, 1.0) and every comparison in the source is exact at the
  rational values used here.
* `Optional[str]` is `Option String`; Python `None` is `none`.
* `dict`-valued payloads that no embedded code inspects (`page_structure`)
  are modelled as an opaque `Option Unit`.
-/

namespace BrowserAuto

/-- models.py `ExecutionStep`: single step in task execution. -/
structure ExecutionStep where
  step_number : ℤ
  action : String
  target : Option String := none
  value : Option String := none
  timestamp : Option String := none
  screenshot : Option String := none
  deriving DecidableEq

/-- models.py `Obstacle`: detected obstacle during exploration.
`likelihood` is a float in [0,1], modelled as `ℚ`. -/
structure Obstacle where
  type : String
  likelihood : ℚ
  handling_strategy : String
  detected_at_step : Option ℤ := none
  deriving DecidableEq

/-- models.py `DecisionPoint`: point where the LLM made a decision. -/
structure DecisionPoint where
  step_number : ℤ
  question : String
  decision : String
  reasoning : String
  alternatives : List String := []
  deriving DecidableEq

/-- models.py `ExplorationResult`: result from LLM exploration. -/
structure ExplorationResult where
  success : Bool
  journey_log : List ExecutionStep
  obstacles : List Obstacle
  decisions : List DecisionPoint
  page_structure : Option Unit := none
  final_result : Option String := none
  error : Option String := none
  repeatability_score : Option ℚ := none
  deriving DecidableEq

/-- models.py `RepeatabilityScore`: analysis of task repeatability. -/
structure RepeatabilityScore where
  score : ℤ
  is_repeatable : Bool
  confidence : ℚ
  recommendation : String
  reasoning : String := ""
  deterministic_steps : Bool := false
  predictable_obstacles : Bool := false
  rule_based_decisions : Bool := false
  stable_dom : Bool := false
  deriving DecidableEq

/-- models.py `GeneratedScript`: generated Python script. -/
structure GeneratedScript where
  code : String
  language : String := "python"
  dependencies : List String := []
  test_status : Option String := none
  script_path : Option String := none
  deriving DecidableEq

/-- models.py `ExecutionResult`: result from task execution.
The `result` payload is `Any` in the source; every value the embedded code
ever stores there is either `None` or captured stdout, hence `Option String`. -/
structure ExecutionResult where
  success : Bool
  method : String
  result : Option String
  steps : Option ℤ := none
  duration : Option ℚ := none
  cost : Option ℚ := none
  error : Option String := none
  script_path : Option String := none
  actions : Option (List String) := none
  deriving DecidableEq

/-! ### String helpers

Python's `sub in s` substring test and `str.lower()`, modelled over the
character list of a `String`. -/

/-- `needle` occurs at the head of `hay` (Python `s.startswith(sub)`). -/
def startsWithL : List Char → List Char → Bool
  | _, [] => true
  | [], _ :: _ => false
  | a :: as, b :: bs => a = b && startsWithL as bs

/-- `needle` occurs somewhere in `hay` (Python `needle in hay`). -/
def subOccurs (needle : List Char) : List Char → Bool
  | [] => startsWithL [] needle
  | c :: t => startsWithL (c :: t) needle || subOccurs needle t

/-- Python `sub in s` on strings. -/
def containsSubstr (s sub : String) : Bool :=
  subOccurs sub.toList s.toList

/-- Python `s.lower()` (ASCII lowering, as `Char.toLower`). -/
def strToLower (s : String) : String :=
  String.mk (s.toList.map Char.toLower)

/-! ### repeatability_analyzer.py: `RepeatabilityAnalyzer` -/

/-- The `common_patterns` list in `are_steps_deterministic`. -/
def common_patterns : List String := ["navigate", "click", "type", "extract"]

/-- `RepeatabilityAnalyzer.are_steps_deterministic`:
empty log is not deterministic; too much action variety
(distinct kinds > 0.7 × total) is not deterministic; otherwise deterministic
iff one of the common pattern actions appears. -/
def are_steps_deterministic (journey_log : List ExecutionStep) : Bool :=
  if journey_log.length = 0 then false
  else
    let action_types := journey_log.map (fun step => step.action)
    let unique_actions := action_types.dedup
    if (unique_actions.length : ℚ) > (action_types.length : ℚ) * (7 / 10) then
      false
    else
      common_patterns.any (fun action => action_types.contains action)

/-- The `unpredictable_types` list in `are_obstacles_predictable`. -/
def unpredictable_types : List String := ["captcha", "random_redirect", "bot_detection"]

/-- `RepeatabilityAnalyzer.are_obstacles_predictable`. -/
def are_obstacles_predictable (obstacles : List Obstacle) : Bool :=
  if obstacles.length = 0 then true
  else
    let predictable := obstacles.all (fun obs => obs.likelihood > 7 / 10)
    let has_unpredictable :=
      obstacles.any (fun obs => unpredictable_types.contains obs.type)
    predictable && !has_unpredictable

/-- The `interpretation_keywords` list in `are_decisions_rule_based`. -/
def interpretation_keywords : List String :=
  ["relevant", "best", "most", "summarize", "analyze",
   "determine", "evaluate", "assess", "judge"]

/-- `RepeatabilityAnalyzer.are_decisions_rule_based`. -/
def are_decisions_rule_based (decisions : List DecisionPoint) : Bool :=
  if decisions.length = 0 then true
  else if decisions.length > 5 then false
  else
    let requires_interpretation := decisions.any (fun decision =>
      interpretation_keywords.any (fun keyword =>
        containsSubstr (strToLower decision.question) keyword))
    !requires_interpretation

/-- `RepeatabilityAnalyzer.is_dom_stable`. -/
def is_dom_stable (exploration : ExplorationResult) : Bool :=
  exploration.success && exploration.journey_log.length < 30

/-- `RepeatabilityAnalyzer.has_dynamic_content`. -/
def has_dynamic_content (exploration : ExplorationResult) : Bool :=
  exploration.journey_log.length > 20 || exploration.decisions.length > 3

/-- `RepeatabilityAnalyzer.get_recommendation`. -/
def get_recommendation (score : ℤ) : String :=
  if score ≥ 7 then "SCRIPT"
  else if score ≥ 3 then "HYBRID"
  else "BROWSER_USE"

/-- `RepeatabilityAnalyzer.analyze`: five additive signals, then
recommendation, repeatability flag and confidence. -/
def analyze (exploration : ExplorationResult) : RepeatabilityScore :=
  let deterministic := are_steps_deterministic exploration.journey_log
  let predictable_obstacles := are_obstacles_predictable exploration.obstacles
  let rule_based := are_decisions_rule_based exploration.decisions
  let stable_dom := is_dom_stable exploration
  let has_dynamic := has_dynamic_content exploration
  let score : ℤ :=
    (if deterministic then 3 else 0) +
    (if predictable_obstacles then 2 else 0) +
    (if rule_based then 2 else -3) +
    (if stable_dom then 2 else 0) +
    (if has_dynamic then -2 else 0)
  let reasoning_parts : List String :=
    [if deterministic then "✓ Steps are deterministic and predictable"
     else "✗ Steps vary or require interpretation",
     if predictable_obstacles then "✓ Obstacles are predictable"
     else "✗ Obstacles are unpredictable",
     if rule_based then "✓ Decisions follow clear rules"
     else "✗ Decisions require LLM interpretation",
     if stable_dom then "✓ DOM structure appears stable"
     else "✗ DOM structure may be dynamic",
     if has_dynamic then "✗ Contains dynamic content"
     else "✓ Content appears static"]
  { score := score
    is_repeatable := score ≥ 5
    confidence := min (|score| / 10 : ℚ) 1
    recommendation := get_recommendation score
    reasoning := String.intercalate "\n" reasoning_parts
    deterministic_steps := deterministic
    predictable_obstacles := predictable_obstacles
    rule_based_decisions := rule_based
    stable_dom := stable_dom }

/-! ### script_generator.py: `ScriptGenerator`

Python's `a or b` idiom on optional strings (`None` and `""` are falsy, and
`f"{None}"` renders as `"None"`) is modelled by `pyOrDefault` / `pyOrOpt` /
`pyStrOpt`.  `datetime.now().isoformat()` is impure; it enters the embedding
as the explicit `now` argument. -/

/-- Python `a or d` where `d` is a string literal default. -/
def pyOrDefault (a : Option String) (d : String) : String :=
  match a with
  | some s => if s = "" then d else s
  | none => d

/-- Python `a or b` on two optionals. -/
def pyOrOpt (a b : Option String) : Option String :=
  match a with
  | some s => if s = "" then b else some s
  | none => b

/-- Python `f"{o}"`: `None` renders as the string `None`. -/
def pyStrOpt : Option String → String
  | some s => s
  | none => "None"

/-- One branch of the `for obstacle in obstacles` loop in
`ScriptGenerator._generate_obstacle_handlers`: the code block appended for
this obstacle, or `none` when the obstacle type has no branch. -/
def obstacleBlock (obstacle : Obstacle) : Option String :=
  if obstacle.type = "cookie_banner" then some
    "\n            # Handle cookie banner\n            try:\n                print(\"🍪 Handling cookie banner...\")\n                await page.click('button:has-text(\"Accept\"), button:has-text(\"Đồng ý\"), button:has-text(\"同意\")', timeout=3000)\n                await page.wait_for_timeout(500)\n            except:\n                pass  # Continue if not found\n"
  else if obstacle.type = "modal" then some
    "\n            # Handle modal\n            try:\n                print(\"📋 Closing modal...\")\n                await page.click('button:has-text(\"Close\"), button.close, .modal-close', timeout=2000)\n                await page.wait_for_timeout(500)\n            except:\n                pass\n"
  else if obstacle.type = "ad" then some
    "\n            # Handle ads\n            try:\n                print(\"🚫 Blocking ads...\")\n                await page.evaluate(\"document.querySelectorAll('.ad, .advertisement').forEach(el => el.remove())\")\n            except:\n                pass\n"
  else none

/-- `ScriptGenerator._generate_obstacle_handlers`. -/
def generate_obstacle_handlers (obstacles : List Obstacle) : String :=
  if obstacles.isEmpty then "            # No obstacles detected"
  else
    String.intercalate "\n"
      ( "            # Handle common obstacles" :: obstacles.filterMap obstacleBlock)

/-- One iteration of the `for i, step in enumerate(journey_log, 1)` loop in
`ScriptGenerator._generate_main_steps`: the code block appended for this
step, or `none` when the action kind matches no branch (the loop body then
appends nothing for the step). -/
def stepBlock (i : ℕ) (step : ExecutionStep) : Option String :=
  if step.action = "click" then some
    ( "\n            # Step " ++ toString i ++ ": Click\n            print(\"🖱️  Clicking element...\")\n            await page.click('" ++ pyOrDefault step.target "button" ++ "')\n            await page.wait_for_timeout(1000)\n")
  else if step.action = "type" ∨ step.action = "fill" then some
    ( "\n            # Step " ++ toString i ++ ": Fill input\n            print(\"⌨️  Typing text...\")\n            await page.fill('" ++ pyOrDefault step.target "input" ++ "', '" ++ pyOrDefault step.value "" ++ "')\n")
  else if step.action = "navigate" then some
    ( "\n            # Step " ++ toString i ++ ": Navigate\n            print(\"🔗 Navigating...\")\n            await page.goto('" ++ pyStrOpt (pyOrOpt step.value step.target) ++ "')\n            await page.wait_for_load_state('networkidle')\n")
  else if step.action = "scroll" then some
    "\n            # Step \x7bi\x7d: Scroll\n            print(\"📜 Scrolling...\")\n            await page.evaluate(\"window.scrollBy(0, 500)\")\n            await page.wait_for_timeout(500)\n"
  else none

/-- `ScriptGenerator._generate_main_steps`. -/
def generate_main_steps (journey_log : List ExecutionStep) : String :=
  if journey_log.isEmpty then "            # No steps recorded"
  else
    String.intercalate "\n"
      ( "            # Main execution steps" ::
        (journey_log.enumFrom 1).filterMap (fun p => stepBlock p.1 p.2))

/-- `ScriptGenerator._generate_extract_logic` (ignores its argument). -/
def generate_extract_logic (_exploration : ExplorationResult) : String :=
  "\n            # Extract results\n            print(\"📊 Extracting data...\")\n            result = \x7b\n                'success': True,\n                'data': await page.evaluate('document.body.innerText'),\n                'url': page.url\n            \x7d\n"

/-- `ScriptGenerator._generate_playwright_script`. -/
def generate_playwright_script (exploration : ExplorationResult)
    (url task now : String) : String :=
  let obstacle_handlers := generate_obstacle_handlers exploration.obstacles
  let main_steps := generate_main_steps exploration.journey_log
  let extract_logic := generate_extract_logic exploration
  "\"\"\"\nAuto-generated script from LLM exploration\nTask: " ++ task ++
  "\nURL: " ++ url ++ "\nGenerated: " ++ now ++
  "\nFramework: Playwright\n\"\"\"\n\nimport asyncio\nfrom playwright.async_api import async_playwright\n\n\nasync def automated_task():\n    \"\"\"Execute the automated task\"\"\"\n    async with async_playwright() as p:\n        browser = await p.chromium.launch(headless=True)\n        page = await browser.new_page()\n        \n        try:\n            print(\"🚀 Starting automation...\")\n            \n            # Step 1: Navigate to URL\n            print(f\"📍 Navigating to \x7burl\x7d\")\n            await page.goto('" ++ url ++
  "')\n            await page.wait_for_load_state('networkidle')\n            \n" ++ obstacle_handlers ++
  "\n            \n" ++ main_steps ++
  "\n            \n" ++ extract_logic ++
  "\n            \n            print(\"✅ Task completed successfully!\")\n            return result\n            \n        except Exception as e:\n            print(f\"❌ Error: \x7be\x7d\")\n            raise\n        finally:\n            await browser.close()\n\n\nif __name__ == \"__main__\":\n    result = asyncio.run(automated_task())\n    print(f\"\\n📊 Result: \x7bresult\x7d\")\n"

/-- `ScriptGenerator._generate_selenium_script` (a stub in the source). -/
def generate_selenium_script (_exploration : ExplorationResult)
    (_url _task : String) : String :=
  "\"\"\"\nSelenium script generation not yet implemented\nUse Playwright instead\n\"\"\"\n"

/-- `ScriptGenerator.generate_from_exploration` for a generator constructed
with the given `framework` (the orchestrator uses `"playwright"`). -/
def generate_from_exploration (framework : String)
    (exploration : ExplorationResult) (url task now : String) : GeneratedScript :=
  if framework = "playwright" then
    { code := generate_playwright_script exploration url task now
      language := "python"
      dependencies := ["playwright"] }
  else
    { code := generate_selenium_script exploration url task
      language := "python"
      dependencies := ["selenium"] }

/-! ### orchestrator.py: `ScriptLibrary`

The library directory is modelled as an association list from file name
(the script id) to file content; `save` overwrites the file named by the
key, `find` reads it if it exists.  `_generate_id` hashes the combined
string `f"{url}:{task}"` with `hashlib.md5` truncated to 12 hex digits;
the digest function itself is external library code, so it enters the
embedding as the explicit argument `h`, applied to the `combined` string
built exactly as in the source. -/

/-- The library directory: file name ↦ file content. -/
abbrev Store := List (String × String)

namespace ScriptLibrary

/-- `ScriptLibrary._generate_id`: hash of `f"{url}:{task}"` (the hash `h`
models `hashlib.md5(...).hexdigest()[:12]`). -/
def generate_id (h : String → String) (url task : String) : String :=
  h (url ++ ":" ++ task)

/-- `ScriptLibrary.find`: read the file named by the key, `none` on a miss. -/
def find (h : String → String) (st : Store) (url task : String) : Option String :=
  st.lookup (generate_id h url task)

/-- `ScriptLibrary.save`: overwrite the file named by the key. -/
def save (h : String → String) (st : Store) (url task code : String) : Store :=
  let script_id := generate_id h url task
  (script_id, code) :: st.filter (fun p => p.1 != script_id)

end ScriptLibrary

/-! ### orchestrator.py: `IntelligentBrowserAutomation`

`execute` and its phases, as a function of the environment one invocation
observes: the library lookup result, the sandbox (`_execute_script`, which
returns captured stdout on exit code 0 and raises otherwise — modelled as
`Except`), the Exploration Engine's trace, the Adaptive Executor's result,
and the path `script_library.save` returns.  Because the source's cached
branch returns the bare sandbox output string while every other branch
returns an `ExecutionResult`, the return type is the sum of the two. -/

/-- Everything one `execute(url, task)` invocation observes from its
collaborators and from the clock. -/
structure Env where
  url : String
  task : String
  /-- `datetime.now().isoformat()` at generation time. -/
  now : String
  /-- `script_library.find url task`. -/
  cached : Option String
  /-- `_execute_script`: `.ok` captured stdout, `.error` the raised message. -/
  sandbox : String → Except String String
  /-- `llm_explorer.explore_task url task`. -/
  exploration : ExplorationResult
  /-- `browser_use_executor.execute_non_repeatable url task exploration`. -/
  browser_use : ExecutionResult
  /-- path returned by `script_library.save url task code`. -/
  save_path : String

/-- What `IntelligentBrowserAutomation.execute` can return: the bare stdout
string of the cached script (source line 103 returns `result`, a `str`),
or an `ExecutionResult`. -/
inductive ExecuteReturn where
  | raw (s : String)
  | res (r : ExecutionResult)
  deriving DecidableEq

/-- `IntelligentBrowserAutomation._execute_with_browser_use`: delegates and
passes the collaborator's result through verbatim. -/
def execute_with_browser_use (env : Env) : ExecutionResult :=
  env.browser_use

/-- `IntelligentBrowserAutomation._execute_with_script`: generate, test in
the sandbox, save to the library on success; fall back to browser-use on a
sandbox failure. -/
def execute_with_script (env : Env) : ExecutionResult :=
  let script := generate_from_exploration "playwright" env.exploration env.url env.task env.now
  match env.sandbox script.code with
  | .ok out =>
    { success := true
      method := "SCRIPT"
      result := some out
      script_path := some env.save_path }
  | .error _ => execute_with_browser_use env

/-- `IntelligentBrowserAutomation._execute_hybrid`: try the script path
first; its only failure mode (a failed sandbox test) already falls back to
browser-use inside `_execute_with_script`, so the surrounding
`try/except` adds nothing in the embedding. -/
def execute_hybrid (env : Env) : ExecutionResult :=
  execute_with_script env

/-- `IntelligentBrowserAutomation.execute` from the exploration phase on
(source lines 108–140): explore, bail out on an unsuccessful trace, else
analyze and route on the recommendation. -/
def execute_after_lookup (env : Env) : ExecutionResult :=
  if !env.exploration.success then
    { success := false
      method := "EXPLORATION_FAILED"
      result := none
      error := env.exploration.error }
  else
    let analysis := analyze env.exploration
    if analysis.recommendation = "SCRIPT" then execute_with_script env
    else if analysis.recommendation = "BROWSER_USE" then execute_with_browser_use env
    else execute_hybrid env

/-- `IntelligentBrowserAutomation.execute` (source lines 96–140): on a
library hit run the cached script, returning the bare sandbox output on
success and falling through to exploration on failure; on a miss go
straight to exploration. -/
def execute (env : Env) : ExecuteReturn :=
  match env.cached with
  | some existing_script =>
    match env.sandbox existing_script with
    | .ok out => .raw out
    | .error _ => .res (execute_after_lookup env)
  | none => .res (execute_after_lookup env)

/-! ### Concrete inputs used by the claim theorems, witnesses and
counterexamples below -/

/-- Concrete input for the C10 witness: a successful exploration that
recorded no steps. -/
def c10_exploration : ExplorationResult :=
  { success := true, journey_log := [], obstacles := [], decisions := [] }

/-- Concrete input for the C7 witness: empty cache, exploration failed with
a reported error. -/
def c7_env : Env :=
  { url := "https://example.com"
    task := "Fill out contact form"
    now := "2026-10-12T00:00:00"
    cached := none
    sandbox := fun _ => Except.error "script failed"
    exploration :=
      { success := false, journey_log := [], obstacles := [], decisions := []
        error := some "Navigation timeout" }
    browser_use := { success := false, method := "BROWSER_USE", result := none }
    save_path := "generated_scripts/aaaaaaaaaaaa.py" }

/-- Concrete input exhibiting the C2 bug: a cache hit whose script runs
successfully in the sandbox, capturing stdout `"ok\n"`. -/
def c2_env : Env :=
  { url := "https://news.ycombinator.com"
    task := "Find the title of the top post"
    now := "2026-10-12T00:00:00"
    cached := some "print('ok')"
    sandbox := fun _ => Except.ok "ok\n"
    exploration := { success := true, journey_log := [], obstacles := [], decisions := [] }
    browser_use := { success := true, method := "BROWSER_USE", result := some "x" }
    save_path := "generated_scripts/aaaaaaaaaaaa.py" }

/-- Concrete inputs for the C4 witness: the identity stands in for the
opaque digest, two distinct (url, task) pairs with distinct keys. -/
def c4_hash : String → String := fun s => s

/-- Concrete decision for the C5 witness: a plain data-entry question with
no interpretation keyword. -/
def c5_decision (n : ℤ) : DecisionPoint :=
  { step_number := n
    question := "Click the first result"
    decision := "clicked"
    reasoning := "first item in the list"
    alternatives := [] }

/-- C5 witness exploration with 6 plain decisions. -/
def c5_e1 : ExplorationResult :=
  { success := true, journey_log := [], obstacles := []
    decisions := [c5_decision 1, c5_decision 2, c5_decision 3,
      c5_decision 4, c5_decision 5, c5_decision 6] }

/-- C5 witness exploration with 2 plain decisions. -/
def c5_e2 : ExplorationResult :=
  { success := true, journey_log := [], obstacles := []
    decisions := [c5_decision 1, c5_decision 2] }

/-- An ExecutionStep with the unrecognized action kind `extract`. -/
def c8_step : ExecutionStep := { step_number := 2, action := "extract" }

/-- A recognized navigation step. -/
def c8_nav : ExecutionStep :=
  { step_number := 1, action := "navigate", value := some "https://example.com" }

/-- Exploration whose journey holds a recognized and an unrecognized step. -/
def c8_exploration : ExplorationResult :=
  { success := true, journey_log := [c8_nav, c8_step]
    obstacles := [], decisions := [] }

/-- Exploration identical to `c8_exploration` but without the unrecognized
step. -/
def c8_exploration_dropped : ExplorationResult :=
  { success := true, journey_log := [c8_nav]
    obstacles := [], decisions := [] }

/-- Journey of only unrecognized steps, for the C8 witness. -/
def c8_journey : List ExecutionStep :=
  [{ step_number := 1, action := "extract" },
   { step_number := 2, action := "hover" }]

/-- Counterexample input for C1: a successful 4-step trace, one step of each
of the four common action kinds, no obstacles, no decisions. -/
def c1_counterexample : ExplorationResult :=
  { success := true
    journey_log :=
      [{ step_number := 1, action := "navigate", target := some "https://example.com" },
       { step_number := 2, action := "click", target := some "#search-button" },
       { step_number := 3, action := "type", target := some "#query", value := some "hello" },
       { step_number := 4, action := "extract" }]
    obstacles := []
    decisions := [] }

/-- Witness input for the amended C1: a successful 6-step trace over the
four common kinds. -/
def c1_witness_exploration : ExplorationResult :=
  { success := true
    journey_log :=
      [{ step_number := 1, action := "navigate", target := some "https://example.com" },
       { step_number := 2, action := "click", target := some "#open-form" },
       { step_number := 3, action := "type", target := some "#name", value := some "Ann" },
       { step_number := 4, action := "type", target := some "#email", value := some "a@b.c" },
       { step_number := 5, action := "click", target := some "#submit" },
       { step_number := 6, action := "extract" }]
    obstacles := []
    decisions := [] }

/-! ### Projection lemmas for `analyze` -/

/-- The score is the signed sum of the five signal contributions. -/
lemma analyze_score_eq (e : ExplorationResult) :
    (analyze e).score =
      (if are_steps_deterministic e.journey_log then 3 else 0) +
      (if are_obstacles_predictable e.obstacles then 2 else 0) +
      (if are_decisions_rule_based e.decisions then 2 else -3) +
      (if is_dom_stable e then 2 else 0) +
      (if has_dynamic_content e then -2 else 0) := rfl

/-- The recommendation is `get_recommendation` of the score. -/
lemma analyze_recommendation_eq (e : ExplorationResult) :
    (analyze e).recommendation = get_recommendation (analyze e).score := rfl

/-- `is_repeatable` is the `score ≥ 5` test. -/
lemma analyze_is_repeatable_eq (e : ExplorationResult) :
    (analyze e).is_repeatable = decide ((analyze e).score ≥ 5) := rfl

/-- `confidence` is `min (|score| / 10) 1`. -/
lemma analyze_confidence_eq (e : ExplorationResult) :
    (analyze e).confidence = min ((|(analyze e).score| / 10 : ℚ)) 1 := rfl

/-! ### Claims -/

/-- **C3**: `get_recommendation` returns SCRIPT exactly when score ≥ 7,
HYBRID exactly when 3 ≤ score ≤ 6, and BROWSER_USE exactly when score < 3;
the boundary scores 7, 6, 3, 2 therefore map to SCRIPT, HYBRID, HYBRID,
BROWSER_USE respectively. -/
theorem C3_get_recommendation_routing (s : ℤ) :
    (get_recommendation s = "SCRIPT" ↔ 7 ≤ s) ∧
    (get_recommendation s = "HYBRID" ↔ 3 ≤ s ∧ s ≤ 6) ∧
    (get_recommendation s = "BROWSER_USE" ↔ s < 3) := by
  unfold get_recommendation
  split_ifs with h1 h2
  · exact ⟨⟨fun _ => h1, fun _ => rfl⟩,
      ⟨fun hh => absurd hh (by decide), fun hh => absurd h1 (by omega)⟩,
      ⟨fun hh => absurd hh (by decide), fun hh => absurd h1 (by omega)⟩⟩
  · exact ⟨⟨fun hh => absurd hh (by decide), fun hh => absurd hh h1⟩,
      ⟨fun _ => ⟨h2, by omega⟩, fun _ => rfl⟩,
      ⟨fun hh => absurd hh (by decide), fun hh => absurd h2 (by omega)⟩⟩
  · exact ⟨⟨fun hh => absurd hh (by decide), fun hh => absurd hh h1⟩,
      ⟨fun hh => absurd hh (by decide), fun hh => absurd hh.1 h2⟩,
      ⟨fun _ => by omega, fun _ => rfl⟩⟩

/-- **C6**: for every exploration, `analyze` sets
`is_repeatable = (score ≥ 5)` and `confidence = min (|score| / 10) 1`. -/
theorem C6_is_repeatable_and_confidence (e : ExplorationResult) :
    (analyze e).is_repeatable = decide ((analyze e).score ≥ 5) ∧
    (analyze e).confidence = min ((|(analyze e).score| / 10 : ℚ)) 1 :=
  ⟨rfl, rfl⟩

/-- **C9**: the score always lies in [−5, 9], hence `|score| / 10 ≤ 0.9 < 1`:
the `min (·, 1.0)` clamp is never reached and confidence never exceeds 0.9. -/
theorem C9_score_bounds_confidence_clamp_unreached (e : ExplorationResult) :
    -5 ≤ (analyze e).score ∧ (analyze e).score ≤ 9 ∧
    (analyze e).confidence = (|(analyze e).score| / 10 : ℚ) ∧
    (analyze e).confidence ≤ 9 / 10 := by
  have h1 : -5 ≤ (analyze e).score ∧ (analyze e).score ≤ 9 := by
    rw [analyze_score_eq]
    refine ⟨?_, ?_⟩ <;> (split_ifs <;> omega)
  have habsZ : |(analyze e).score| ≤ 9 := by
    rcases h1 with ⟨ha, hb⟩
    rw [abs_le]
    omega
  have habs : ((|(analyze e).score| : ℤ) : ℚ) ≤ 9 := by exact_mod_cast habsZ
  have hnn : (0 : ℚ) ≤ ((|(analyze e).score| : ℤ) : ℚ) := by
    exact_mod_cast abs_nonneg (analyze e).score
  have hconf : (analyze e).confidence = (|(analyze e).score| / 10 : ℚ) := by
    rw [analyze_confidence_eq]
    exact min_eq_left (by linarith)
  exact ⟨h1.1, h1.2, hconf, by rw [hconf]; linarith⟩

/-- **C10**: an exploration with an empty journey log is never routed to
SCRIPT: determinism fails on the empty list, so the score is at most 6. -/
theorem C10_empty_journey_never_script (e : ExplorationResult)
    (h : e.journey_log = []) :
    (analyze e).score ≤ 6 ∧ (analyze e).recommendation ≠ "SCRIPT" := by
  have hdet : are_steps_deterministic e.journey_log = false := by rw [h]; rfl
  have hs : (analyze e).score ≤ 6 := by
    rw [analyze_score_eq, hdet]
    simp only [Bool.false_eq_true, if_false]
    split_ifs <;> omega
  refine ⟨hs, ?_⟩
  rw [analyze_recommendation_eq]
  unfold get_recommendation
  split_ifs with h1 h2
  · omega
  · decide
  · decide

/-- Witness for C10 at `c10_exploration`. -/
theorem C10_empty_journey_never_script_witness :
    c10_exploration.journey_log = [] ∧
    ((analyze c10_exploration).score ≤ 6 ∧
      (analyze c10_exploration).recommendation ≠ "SCRIPT") :=
  ⟨rfl, C10_empty_journey_never_script c10_exploration rfl⟩

/-- **C7**: on a cache miss with an unsuccessful exploration, `execute`
returns a terminal `ExecutionResult` with `success = false`,
`method = EXPLORATION_FAILED` and the engine's error. -/
theorem C7_exploration_failure_terminal (env : Env)
    (hmiss : env.cached = none)
    (hfail : env.exploration.success = false) :
    execute env = .res
      { success := false
        method := "EXPLORATION_FAILED"
        result := none
        error := env.exploration.error } := by
  unfold execute execute_after_lookup
  rw [hmiss, hfail]
  rfl

/-- Witness for C7 at `c7_env`. -/
theorem C7_exploration_failure_terminal_witness :
    c7_env.cached = none ∧ c7_env.exploration.success = false ∧
    execute c7_env = .res
      { success := false
        method := "EXPLORATION_FAILED"
        result := none
        error := some "Navigation timeout" } :=
  ⟨rfl, rfl, C7_exploration_failure_terminal c7_env rfl rfl⟩

/-- **C2**: on a cache hit with a successful sandbox run, `execute` returns
the bare captured-stdout string (source line 103 returns the `str` from
`_execute_script` directly), not an `ExecutionResult` with method SCRIPT as
the spec, the function's declared return type, and its callers require. -/
theorem C2_cached_success_returns_bare_string :
    execute c2_env = ExecuteReturn.raw "ok\n" ∧
    ∀ r : ExecutionResult, execute c2_env ≠ ExecuteReturn.res r :=
  ⟨rfl, fun _ h => ExecuteReturn.noConfusion h⟩

/-- A lookup on a store in which no entry carries the key misses. -/
lemma lookup_eq_none_of_no_key (k : String) :
    ∀ st : Store, (∀ p ∈ st, p.1 ≠ k) → st.lookup k = none := by
  intro st
  induction st with
  | nil => intro _; rfl
  | cons a tl ih =>
    intro hk
    have ha : k ≠ a.1 := Ne.symm (hk a (List.mem_cons_self a tl))
    have hb : (k == a.1) = false := beq_eq_false_iff_ne.mpr ha
    simp only [List.lookup, hb]
    exact ih (fun p hp => hk p (List.mem_cons_of_mem a hp))

/-- **C4**: library round trip.  For any key function (the source's
truncated-MD5 `_generate_id`), `find` directly after `save` under the same
(url, task) returns exactly the saved code; `find` on a store holding no
entry under the pair's key returns absent; and a `save` under a
non-colliding key in between does not disturb the first result. -/
theorem C4_library_round_trip (h : String → String) (st : Store)
    (u t u2 t2 code code2 : String)
    (habsent : ∀ p ∈ st, p.1 ≠ ScriptLibrary.generate_id h u t)
    (hdiff : ScriptLibrary.generate_id h u2 t2 ≠ ScriptLibrary.generate_id h u t) :
    ScriptLibrary.find h (ScriptLibrary.save h st u t code) u t = some code ∧
    ScriptLibrary.find h st u t = none ∧
    ScriptLibrary.find h
      (ScriptLibrary.save h (ScriptLibrary.save h st u t code) u2 t2 code2)
      u t = some code := by
  refine ⟨?_, lookup_eq_none_of_no_key _ st habsent, ?_⟩
  · simp [ScriptLibrary.find, ScriptLibrary.save, List.lookup]
  · have hkk2 : (ScriptLibrary.generate_id h u t ==
        ScriptLibrary.generate_id h u2 t2) = false :=
      beq_eq_false_iff_ne.mpr (Ne.symm hdiff)
    have hfilter : (ScriptLibrary.generate_id h u t !=
        ScriptLibrary.generate_id h u2 t2) = true := by
      simpa using Ne.symm hdiff
    simp [ScriptLibrary.find, ScriptLibrary.save, List.lookup, List.filter_cons,
      hkk2, hfilter]

/-- Witness for C4 at an empty store with concrete urls, tasks and code. -/
theorem C4_library_round_trip_witness :
    (∀ p ∈ ([] : Store), p.1 ≠ ScriptLibrary.generate_id c4_hash "https://a.com" "task one") ∧
    ScriptLibrary.generate_id c4_hash "https://b.com" "task one" ≠
      ScriptLibrary.generate_id c4_hash "https://a.com" "task one" ∧
    (ScriptLibrary.find c4_hash
        (ScriptLibrary.save c4_hash [] "https://a.com" "task one" "print('a')")
        "https://a.com" "task one" = some "print('a')" ∧
      ScriptLibrary.find c4_hash [] "https://a.com" "task one" = none ∧
      ScriptLibrary.find c4_hash
        (ScriptLibrary.save c4_hash
          (ScriptLibrary.save c4_hash [] "https://a.com" "task one" "print('a')")
          "https://b.com" "task one" "print('b')")
        "https://a.com" "task one" = some "print('a')") :=
  ⟨fun p hp => absurd hp (List.not_mem_nil p),
   by decide,
   C4_library_round_trip c4_hash [] "https://a.com" "task one" "https://b.com"
     "task one" "print('a')" "print('b')"
     (fun p hp => absurd hp (List.not_mem_nil p)) (by decide)⟩

/-- **C5**: more than 5 decision points force `are_decisions_rule_based` to
false regardless of the questions' content, and the decision signal then
contributes −3 to the score; with at most 5 decisions none of whose
lowercased questions contains an interpretation keyword it is true and
contributes +2.  The two situations are exhibited on two explorations. -/
theorem C5_decision_count_dominates (e1 e2 : ExplorationResult)
    (h1 : 5 < e1.decisions.length)
    (h2 : e2.decisions.length ≤ 5)
    (h3 : e2.decisions.all (fun decision =>
      !(interpretation_keywords.any (fun keyword =>
        containsSubstr (strToLower decision.question) keyword))) = true) :
    are_decisions_rule_based e1.decisions = false ∧
    (analyze e1).score =
      (if are_steps_deterministic e1.journey_log then 3 else 0) +
      (if are_obstacles_predictable e1.obstacles then 2 else 0) + (-3) +
      (if is_dom_stable e1 then 2 else 0) +
      (if has_dynamic_content e1 then -2 else 0) ∧
    are_decisions_rule_based e2.decisions = true ∧
    (analyze e2).score =
      (if are_steps_deterministic e2.journey_log then 3 else 0) +
      (if are_obstacles_predictable e2.obstacles then 2 else 0) + 2 +
      (if is_dom_stable e2 then 2 else 0) +
      (if has_dynamic_content e2 then -2 else 0) := by
  have hrb1 : are_decisions_rule_based e1.decisions = false := by
    simp only [are_decisions_rule_based]
    rw [if_neg (by omega : ¬ e1.decisions.length = 0), if_pos h1]
  have hrb2 : are_decisions_rule_based e2.decisions = true := by
    simp only [are_decisions_rule_based]
    by_cases h0 : e2.decisions.length = 0
    · rw [if_pos h0]
    · rw [if_neg h0, if_neg (by omega : ¬ e2.decisions.length > 5)]
      have hany : e2.decisions.any (fun decision =>
          interpretation_keywords.any (fun keyword =>
            containsSubstr (strToLower decision.question) keyword)) = false := by
        rw [List.any_eq_false]
        intro d hd
        have := List.all_eq_true.mp h3 d hd
        simpa using this
      rw [hany]
      rfl
  refine ⟨hrb1, ?_, hrb2, ?_⟩
  · rw [analyze_score_eq, hrb1]
    simp only [Bool.false_eq_true, if_false]
  · rw [analyze_score_eq, hrb2]
    simp only [if_true]

/-- Witness for C5 at `c5_e1` (6 decisions) and `c5_e2` (2 decisions). -/
theorem C5_decision_count_dominates_witness :
    5 < c5_e1.decisions.length ∧
    c5_e2.decisions.length ≤ 5 ∧
    c5_e2.decisions.all (fun decision =>
      !(interpretation_keywords.any (fun keyword =>
        containsSubstr (strToLower decision.question) keyword))) = true ∧
    (are_decisions_rule_based c5_e1.decisions = false ∧
      (analyze c5_e1).score =
        (if are_steps_deterministic c5_e1.journey_log then 3 else 0) +
        (if are_obstacles_predictable c5_e1.obstacles then 2 else 0) + (-3) +
        (if is_dom_stable c5_e1 then 2 else 0) +
        (if has_dynamic_content c5_e1 then -2 else 0) ∧
      are_decisions_rule_based c5_e2.decisions = true ∧
      (analyze c5_e2).score =
        (if are_steps_deterministic c5_e2.journey_log then 3 else 0) +
        (if are_obstacles_predictable c5_e2.obstacles then 2 else 0) + 2 +
        (if is_dom_stable c5_e2 then 2 else 0) +
        (if has_dynamic_content c5_e2 then -2 else 0)) :=
  ⟨by decide, by decide, by decide,
    C5_decision_count_dominates c5_e1 c5_e2 (by decide) (by decide) (by decide)⟩

/-- **C8, counterexample**: an unrecognized action kind produces no code at
all — no no-op placeholder appears in the generated program.  The step loop
emits `none` for it, a journey holding only the unrecognized step renders as
the bare header, and the full generated program with the unrecognized step
present is byte-identical to the program generated with it dropped. -/
theorem C8_counterexample_no_placeholder :
    c8_step.action ∉ (["click", "type", "fill", "navigate", "scroll"] : List String) ∧
    stepBlock 2 c8_step = none ∧
    generate_main_steps [c8_step] = "            # Main execution steps" ∧
    (generate_from_exploration "playwright" c8_exploration
        "https://example.com" "Get the page text" "2026-10-12T00:00:00").code =
      (generate_from_exploration "playwright" c8_exploration_dropped
        "https://example.com" "Get the page text" "2026-10-12T00:00:00").code := by
  exact ⟨by decide, rfl, rfl, rfl⟩

/-- **C8, amended**: script generation never fails — `stepBlock` is `none`
on every unrecognized action kind and `generate_main_steps` is total — but
an unrecognized step is skipped outright: it contributes nothing to the
generated program, so a journey of only unrecognized steps renders as the
bare header comment. -/
theorem C8_amended_unrecognized_steps_skipped (journey_log : List ExecutionStep)
    (hne : journey_log ≠ [])
    (h : ∀ step ∈ journey_log,
      step.action ∉ (["click", "type", "fill", "navigate", "scroll"] : List String)) :
    (∀ p ∈ journey_log.enumFrom 1, stepBlock p.1 p.2 = none) ∧
    generate_main_steps journey_log = "            # Main execution steps" := by
  have hblocks : ∀ p ∈ journey_log.enumFrom 1, stepBlock p.1 p.2 = none := by
    intro p hp
    have hmem : p.2 ∈ journey_log := by
      have := List.mem_map_of_mem Prod.snd hp
      rwa [List.enumFrom_map_snd] at this
    have hact := h p.2 hmem
    simp only [List.mem_cons, List.mem_singleton, not_or] at hact
    obtain ⟨hc, ht, hf, hn, hs, -⟩ := hact
    simp only [stepBlock]
    rw [if_neg hc, if_neg (by tauto), if_neg hn, if_neg hs]
  refine ⟨hblocks, ?_⟩
  simp only [generate_main_steps]
  rw [if_neg (by simpa using hne)]
  rw [List.filterMap_eq_nil_iff.mpr hblocks]
  rfl

/-- Witness for the amended C8 at `c8_journey`. -/
theorem C8_amended_unrecognized_steps_skipped_witness :
    c8_journey ≠ [] ∧
    (∀ step ∈ c8_journey,
      step.action ∉ (["click", "type", "fill", "navigate", "scroll"] : List String)) ∧
    ((∀ p ∈ c8_journey.enumFrom 1, stepBlock p.1 p.2 = none) ∧
      generate_main_steps c8_journey = "            # Main execution steps") :=
  ⟨by decide, by decide,
    C8_amended_unrecognized_steps_skipped c8_journey (by decide) (by decide)⟩

/-- The float comparison `unique > total * 0.7` of the variety test is the
integer comparison `10 * unique > 7 * total`. -/
lemma variety_threshold (u n : ℕ) :
    ((u : ℚ) > (n : ℚ) * (7 / 10)) ↔ 10 * u > 7 * n := by
  rw [gt_iff_lt, gt_iff_lt]
  constructor <;> intro h
  · by_contra hc
    push_neg at hc
    have hq : ((10 * u : ℕ) : ℚ) ≤ ((7 * n : ℕ) : ℚ) := by exact_mod_cast hc
    push_cast at hq
    linarith
  · have hq : ((7 * n : ℕ) : ℚ) < ((10 * u : ℕ) : ℚ) := by exact_mod_cast h
    push_cast at hq
    linarith

/-- `are_steps_deterministic` with the float test replaced by its integer
equivalent, so that concrete journeys evaluate by `decide`. -/
lemma are_steps_deterministic_eval (journey_log : List ExecutionStep) :
    are_steps_deterministic journey_log =
      (decide (journey_log.length ≠ 0) &&
       decide (10 * (journey_log.map (fun s => s.action)).dedup.length ≤
         7 * journey_log.length) &&
       common_patterns.any (fun action =>
         (journey_log.map (fun s => s.action)).contains action)) := by
  simp only [are_steps_deterministic]
  by_cases h0 : journey_log.length = 0
  · simp [h0]
  · rw [if_neg h0]
    have hlenA : (journey_log.map (fun s => s.action)).length =
        journey_log.length := List.length_map _ _
    by_cases hr : ((journey_log.map (fun s => s.action)).dedup.length : ℚ) >
        ((journey_log.map (fun s => s.action)).length : ℚ) * (7 / 10)
    · rw [if_pos hr]
      rw [hlenA, variety_threshold] at hr
      have : ¬ (10 * (journey_log.map (fun s => s.action)).dedup.length ≤
          7 * journey_log.length) := by omega
      simp [h0, this]
    · rw [if_neg hr]
      rw [hlenA, variety_threshold] at hr
      have : 10 * (journey_log.map (fun s => s.action)).dedup.length ≤
          7 * journey_log.length := by omega
      simp [h0, this]

/-- **C1, counterexample**: `c1_counterexample` satisfies every hypothesis of
the claim — its action kinds are exactly {navigate, click, type, extract},
no obstacles, no decisions, success, fewer than 30 steps — yet `analyze`
returns score 6, recommendation HYBRID (not SCRIPT) and confidence 0.6 (not
0.9): with 4 steps of 4 distinct kinds the variety test `4 > 4 * 0.7`
rejects determinism. -/
theorem C1_counterexample_four_step_trace :
    (c1_counterexample.journey_log.map (fun s => s.action)).toFinset =
      ({"navigate", "click", "type", "extract"} : Finset String) ∧
    c1_counterexample.obstacles = [] ∧
    c1_counterexample.decisions = [] ∧
    c1_counterexample.success = true ∧
    c1_counterexample.journey_log.length < 30 ∧
    (analyze c1_counterexample).score = 6 ∧
    (analyze c1_counterexample).recommendation = "HYBRID" ∧
    (analyze c1_counterexample).confidence = 6 / 10 := by
  have hdet : are_steps_deterministic c1_counterexample.journey_log = false := by
    rw [are_steps_deterministic_eval]; decide
  have hobs' : are_obstacles_predictable c1_counterexample.obstacles = true := rfl
  have hdec' : are_decisions_rule_based c1_counterexample.decisions = true := rfl
  have hstab : is_dom_stable c1_counterexample = true := by decide
  have hdyn : has_dynamic_content c1_counterexample = false := by decide
  have hscore : (analyze c1_counterexample).score = 6 := by
    rw [analyze_score_eq, hdet, hobs', hdec', hstab, hdyn]
    simp
  refine ⟨by decide, rfl, rfl, rfl, by decide, hscore, ?_, ?_⟩
  · rw [analyze_recommendation_eq, hscore]; decide
  · rw [analyze_confidence_eq, hscore]; norm_num

/-- **C1, amended**: the claim holds once the step count is additionally
constrained to 6 ≤ n ≤ 20: then the four distinct kinds pass the variety
test (4 ≤ 0.7·n) and the dynamic-content penalty (n > 20) is not triggered,
so analyze returns score 9, SCRIPT, repeatable, confidence 0.9. -/
theorem C1_amended_script_route (e : ExplorationResult)
    (hset : (e.journey_log.map (fun s => s.action)).toFinset =
      ({"navigate", "click", "type", "extract"} : Finset String))
    (hobs : e.obstacles = [])
    (hdec : e.decisions = [])
    (hsucc : e.success = true)
    (h6 : 6 ≤ e.journey_log.length)
    (h20 : e.journey_log.length ≤ 20) :
    (analyze e).score = 9 ∧
    (analyze e).recommendation = "SCRIPT" ∧
    (analyze e).is_repeatable = true ∧
    (analyze e).confidence = 9 / 10 := by
  have hdet : are_steps_deterministic e.journey_log = true := by
    simp only [are_steps_deterministic]
    rw [if_neg (by omega : ¬ e.journey_log.length = 0)]
    have hlenA : (e.journey_log.map (fun s => s.action)).length =
        e.journey_log.length := List.length_map _ _
    have hcard : (e.journey_log.map (fun s => s.action)).dedup.length = 4 := by
      have hc := List.card_toFinset (e.journey_log.map (fun s => s.action))
      rw [hset] at hc
      exact hc.symm.trans (by decide)
    rw [if_neg ?hratio]
    case hratio =>
      rw [not_lt, hcard, hlenA]
      have hq : (6 : ℚ) ≤ (e.journey_log.length : ℚ) := by exact_mod_cast h6
      nlinarith
    have hnav : "navigate" ∈ e.journey_log.map (fun s => s.action) :=
      List.mem_toFinset.mp (by rw [hset]; decide)
    simp only [common_patterns, List.any_eq_true]
    exact ⟨"navigate", by decide, by simpa using hnav⟩
  have hobs' : are_obstacles_predictable e.obstacles = true := by rw [hobs]; rfl
  have hdec' : are_decisions_rule_based e.decisions = true := by rw [hdec]; rfl
  have hstab : is_dom_stable e = true := by
    simp only [is_dom_stable, hsucc, Bool.true_and, decide_eq_true_eq]
    omega
  have hdyn : has_dynamic_content e = false := by
    have hn : ¬ e.journey_log.length > 20 := by omega
    simp [has_dynamic_content, hdec, hn]
  have hscore : (analyze e).score = 9 := by
    rw [analyze_score_eq, hdet, hobs', hdec', hstab, hdyn]
    simp
  refine ⟨hscore, ?_, ?_, ?_⟩
  · rw [analyze_recommendation_eq, hscore]; decide
  · rw [analyze_is_repeatable_eq, hscore]; decide
  · rw [analyze_confidence_eq, hscore]; norm_num

/-- Witness for the amended C1 at `c1_witness_exploration`. -/
theorem C1_amended_script_route_witness :
    ((c1_witness_exploration.journey_log.map (fun s => s.action)).toFinset =
      ({"navigate", "click", "type", "extract"} : Finset String)) ∧
    c1_witness_exploration.obstacles = [] ∧
    c1_witness_exploration.decisions = [] ∧
    c1_witness_exploration.success = true ∧
    6 ≤ c1_witness_exploration.journey_log.length ∧
    c1_witness_exploration.journey_log.length ≤ 20 ∧
    ((analyze c1_witness_exploration).score = 9 ∧
      (analyze c1_witness_exploration).recommendation = "SCRIPT" ∧
      (analyze c1_witness_exploration).is_repeatable = true ∧
      (analyze c1_witness_exploration).confidence = 9 / 10) :=
  ⟨by decide, rfl, rfl, rfl, by decide, by decide,
    C1_amended_script_route c1_witness_exploration (by decide) rfl rfl rfl
      (by decide) (by decide)⟩

/-- Witness for C3 at the boundary scores 7, 6, 3 and 2. -/
theorem C3_get_recommendation_routing_witness :
    get_recommendation 7 = "SCRIPT" ∧ get_recommendation 6 = "HYBRID" ∧
    get_recommendation 3 = "HYBRID" ∧ get_recommendation 2 = "BROWSER_USE" :=
  ⟨(C3_get_recommendation_routing 7).1.mpr (by norm_num),
   (C3_get_recommendation_routing 6).2.1.mpr (by norm_num),
   (C3_get_recommendation_routing 3).2.1.mpr (by norm_num),
   (C3_get_recommendation_routing 2).2.2.mpr (by norm_num)⟩

/-- Witness for C6 at the concrete exploration `c10_exploration`. -/
theorem C6_is_repeatable_and_confidence_witness :
    (analyze c10_exploration).is_repeatable =
      decide ((analyze c10_exploration).score ≥ 5) ∧
    (analyze c10_exploration).confidence =
      min ((|(analyze c10_exploration).score| / 10 : ℚ)) 1 :=
  C6_is_repeatable_and_confidence c10_exploration

/-- Witness for C9 at the concrete exploration `c10_exploration`. -/
theorem C9_score_bounds_confidence_clamp_unreached_witness :
    -5 ≤ (analyze c10_exploration).score ∧ (analyze c10_exploration).score ≤ 9 ∧
    (analyze c10_exploration).confidence =
      (|(analyze c10_exploration).score| / 10 : ℚ) ∧
    (analyze c10_exploration).confidence ≤ 9 / 10 :=
  C9_score_bounds_confidence_clamp_unreached c10_exploration

end BrowserAuto
